import Mathlib

/-!
Shallow embedding of the exception/trap layer of `src/exception.c` (m1n1):
the synchronous exception handler `exc_sync`, the guard state machine it
consults, and the fault-reporter pieces the claims refer to (the exception
class table `ec_table` and the stack-pointer computation of `print_regs`).

Machine registers and the register-save area are modelled as explicit state;
`u64` values are `Nat` (with `% 2 ^ 64` where the code's arithmetic can wrap);
the `volatile int exc_count` is `Int`. Console output is modelled as a list of
events, one per `printf`/`uart_puts` call site, and the `flush_and_reboot()`
fatal path as a `halted` flag on the result.
-/

namespace M1n1

/-- Modelled from the spec: the guard enumeration `enum exc_guard_t` is declared
in `exception.h`, which is not among the analyzed sources; the spec describes
`exc_guard` as a tagged value combining a mode `OFF | SKIP | MARK | RETURN`
with an independent (orthogonal) silence flag, and `exception.c` extracts the
mode with `GUARD_TYPE_MASK` and tests the flag with `GUARD_SILENT`. The modes
are consecutive small codes inside the type mask and the silence flag is a
disjoint bit outside it, so that the flag is orthogonal to the mode. -/
def GUARD_OFF : Nat := 0

def GUARD_SKIP : Nat := 1

def GUARD_MARK : Nat := 2

def GUARD_RETURN : Nat := 3

def GUARD_TYPE_MASK : Nat := 0xff

def GUARD_SILENT : Nat := 0x100

/-- The poison constant `0xacce5515abad1dea` written by `GUARD_MARK` and
`GUARD_RETURN` recovery (exception.c lines 258 and 262). -/
def POISON : Nat := 0xacce5515abad1dea

/-- Machine state visible to `exc_sync`: the banked system registers the code
reads and writes (`SPSR_EL1`, `ELR_EL1`, `ESR_EL1`, their `_EL2` and guest
shadow `_EL12` counterparts), the register-save area `regs` passed in by the
vector table (indexed access, 64-bit slots), the guard cell and fault counter,
the privilege predicates `in_el2()` / `in_gl12()`, instruction memory as seen
by `read32`, and the addresses of the `el0_ret` / `el1_ret` return thunks. -/
structure ExcState where
  spsr_el1 : Nat
  elr_el1 : Nat
  esr_el1 : Nat
  spsr_el2 : Nat
  elr_el2 : Nat
  esr_el2 : Nat
  spsr_el12 : Nat
  elr_el12 : Nat
  regs : Nat → Nat
  exc_guard : Nat
  exc_count : Int
  in_el2 : Bool
  in_gl12 : Bool
  mem : Nat → Nat
  el0_ret : Nat
  el1_ret : Nat

/-- Pointwise update of the register-save area (`regs[i] = v`). -/
def updReg (regs : Nat → Nat) (i v : Nat) : Nat → Nat :=
  fun j => if j = i then v else regs j

/-- One diagnostic-output event per print call site in `exc_sync`:
the `uart_puts("Exception: SYNC")` banner, the `EL1 Exception` and
`Unknown HVC` printfs, the `print_regs(regs, el12)` report, and the
`Recovering from exception (ELR=...)` message. -/
inductive Event where
  | sync_banner : Event
  | el1_exc (imm : Nat) : Event
  | unknown_hvc (imm : Nat) : Event
  | regs_report (el12 : Bool) : Event
  | recovering (elr : Nat) : Event
deriving DecidableEq, Repr

/-- Result of one `exc_sync` invocation: final machine state, emitted output,
the local `el12` flag at the point the shared reporting/guard logic ran,
whether the handler returned early (before the shared logic), and whether
`flush_and_reboot()` was reached. -/
structure SyncResult where
  st : ExcState
  output : List Event
  el12 : Bool
  earlyReturn : Bool
  halted : Bool

/-- Condition of exception.c line 210: `(spsr & 0xf) == 0 && ((esr >> 26) & 0x3f) == 0x3c`
(exception taken from EL0t with exception class `brk (a64)`). -/
def isCleanEl0Return (s : ExcState) : Prop :=
  s.spsr_el1 &&& 0xf = 0 ∧ (s.esr_el1 >>> 26) &&& 0x3f = 0x3c

instance (s : ExcState) : Decidable (isCleanEl0Return s) :=
  inferInstanceAs (Decidable (_ ∧ _))

/-- Condition of exception.c line 218:
`in_el2() && !in_gl12() && (spsr & 0xf) == 5 && ((esr >> 26) & 0x3f) == 0x16`
(hypercall: `hvc` in a64 from EL1h, at EL2 and not in guest-lockdown mode). -/
def isHvc (s : ExcState) : Prop :=
  s.in_el2 = true ∧ s.in_gl12 = false ∧ s.spsr_el1 &&& 0xf = 5 ∧
    (s.esr_el1 >>> 26) &&& 0x3f = 0x16

instance (s : ExcState) : Decidable (isHvc s) :=
  inferInstanceAs (Decidable (_ ∧ _ ∧ _ ∧ _))

/-- Tail of `exc_sync` after the guard switch (exception.c lines 271-275):
increment `exc_count`, print the recovery message unless the (current, possibly
just-reset) guard value has the silent bit, and commit `elr` via `msr(ELR_EL1, elr)`. -/
def finishGuard (s : ExcState) (el12 : Bool) (out : List Event) (elr : Nat) : SyncResult :=
  let s1 : ExcState := { s with exc_count := s.exc_count + 1 }
  let out1 := out ++ (if s1.exc_guard &&& GUARD_SILENT = 0 then [Event.recovering elr] else [])
  { st := { s1 with elr_el1 := elr }, output := out1, el12 := el12,
    earlyReturn := false, halted := false }

/-- Shared reporting and guard-resolution logic of `exc_sync`
(exception.c lines 245-275): barriers (no-ops here), `print_regs` unless
silent, then the `switch (exc_guard & GUARD_TYPE_MASK)`:
`GUARD_SKIP` resumes at `ELR_EL1 + 4`; `GUARD_MARK` additionally poisons
`regs[insn & 0x1f]` where `insn = read32(ELR_EL1)`; `GUARD_RETURN` poisons
`regs[0]`, resumes at `regs[30]` and resets `exc_guard` to `GUARD_OFF`;
`GUARD_OFF` and any other value fall to `flush_and_reboot()`. -/
def guardPhase (s : ExcState) (el12 : Bool) (out : List Event) : SyncResult :=
  let out1 := out ++ (if s.exc_guard &&& GUARD_SILENT = 0 then [Event.regs_report el12] else [])
  if s.exc_guard &&& GUARD_TYPE_MASK = GUARD_SKIP then
    finishGuard s el12 out1 ((s.elr_el1 + 4) % 2 ^ 64)
  else if s.exc_guard &&& GUARD_TYPE_MASK = GUARD_MARK then
    let insn := s.mem s.elr_el1
    let s1 : ExcState := { s with regs := updReg s.regs (insn &&& 0x1f) POISON }
    finishGuard s1 el12 out1 ((s1.elr_el1 + 4) % 2 ^ 64)
  else if s.exc_guard &&& GUARD_TYPE_MASK = GUARD_RETURN then
    let s1 : ExcState := { s with regs := updReg s.regs 0 POISON, exc_guard := GUARD_OFF }
    finishGuard s1 el12 out1 (s1.regs 30)
  else
    { st := s, output := out1, el12 := el12, earlyReturn := false, halted := true }

/-- Hypercall dispatch of `exc_sync` (exception.c lines 219-239), reached under
`isHvc`: `imm = mrs(ESR_EL2) & 0xffff`; immediate `0` redirects to the `el1_ret`
thunk (`SPSR_EL2 = 0x09`, `ELR_EL2 = el1_ret`) and returns; `0x10..0x1f` prints
(unless silent), copies the guest shadow registers into the host's
(`SPSR_EL2 = SPSR_EL12`, `ELR_EL2 = ELR_EL12`), sets `el12 = 1` and falls
through to `guardPhase`; any other immediate prints `Unknown HVC` and falls
through with `el12 = 0`. -/
def hvcDispatch (s : ExcState) : SyncResult :=
  let imm := s.esr_el2 &&& 0xffff
  if imm = 0 then
    { st := { s with spsr_el2 := 0x09, elr_el2 := s.el1_ret },
      output := [], el12 := false, earlyReturn := true, halted := false }
  else if 0x10 ≤ imm ∧ imm ≤ 0x1f then
    let out := if s.exc_guard &&& GUARD_SILENT = 0 then [Event.el1_exc imm] else []
    guardPhase { s with spsr_el2 := s.spsr_el12, elr_el2 := s.elr_el12 } true out
  else
    guardPhase s false [Event.unknown_hvc imm]

/-- The synchronous exception handler `exc_sync` (exception.c lines 201-279).
The clean-EL0-return check (line 210) redirects to the `el0_ret` thunk
(`SPSR_EL1 = 0x09`, `ELR_EL1 = el0_ret`) and returns immediately; the
hypercall check (line 218) dispatches on the immediate; otherwise the
`Exception: SYNC` banner is printed (unless silent) and control reaches the
shared reporting/guard logic with `el12 = 0`. -/
def exc_sync (s : ExcState) : SyncResult :=
  if isCleanEl0Return s then
    { st := { s with spsr_el1 := 0x09, elr_el1 := s.el0_ret },
      output := [], el12 := false, earlyReturn := true, halted := false }
  else if isHvc s then
    hvcDispatch s
  else
    guardPhase s false (if s.exc_guard &&& GUARD_SILENT = 0 then [Event.sync_banner] else [])

/-- The `ec_table` of exception.c lines 41-83: a 64-entry sparse table from the
6-bit exception class to its label; unassigned entries are null (`none`). -/
def ec_table (c : Nat) : Option String :=
  match c with
  | 0x00 => some "unknown"
  | 0x01 => some "wf*"
  | 0x03 => some "c15 mcr/mrc"
  | 0x04 => some "c15 mcrr/mrrc"
  | 0x05 => some "c14 mcr/mrc"
  | 0x06 => some "ldc/stc"
  | 0x07 => some "FP off"
  | 0x08 => some "VMRS access"
  | 0x09 => some "PAC off"
  | 0x0a => some "ld/st64b"
  | 0x0c => some "c14 mrrc"
  | 0x0d => some "branch target"
  | 0x0e => some "illegal state"
  | 0x11 => some "svc in a32"
  | 0x12 => some "hvc in a32"
  | 0x13 => some "smc in a32"
  | 0x15 => some "svc in a64"
  | 0x16 => some "hvc in a64"
  | 0x17 => some "smc in a64"
  | 0x18 => some "other mcr/mrc/sys"
  | 0x19 => some "SVE off"
  | 0x1a => some "eret"
  | 0x1c => some "PAC failure"
  | 0x20 => some "instruction abort (lower)"
  | 0x21 => some "instruction abort (current)"
  | 0x22 => some "pc misaligned"
  | 0x24 => some "data abort (lower)"
  | 0x25 => some "data abort (current)"
  | 0x26 => some "sp misaligned"
  | 0x28 => some "FP exception (a32)"
  | 0x2c => some "FP exception (a64)"
  | 0x2f => some "SError"
  | 0x30 => some "BP (lower)"
  | 0x31 => some "BP (current)"
  | 0x32 => some "step (lower)"
  | 0x33 => some "step (current)"
  | 0x34 => some "watchpoint (lower)"
  | 0x35 => some "watchpoint (current)"
  | 0x38 => some "bkpt (a32)"
  | 0x3a => some "vector catch (a32)"
  | 0x3c => some "brk (a64)"
  | _ => none

/-- The class indices that `ec_table` assigns (the non-null designated
initializers of exception.c lines 42-82). -/
def assignedECs : List Nat :=
  [0x00, 0x01, 0x03, 0x04, 0x05, 0x06, 0x07, 0x08, 0x09, 0x0a, 0x0c, 0x0d,
   0x0e, 0x11, 0x12, 0x13, 0x15, 0x16, 0x17, 0x18, 0x19, 0x1a, 0x1c, 0x20,
   0x21, 0x22, 0x24, 0x25, 0x26, 0x28, 0x2c, 0x2f, 0x30, 0x31, 0x32, 0x33,
   0x34, 0x35, 0x38, 0x3a, 0x3c]

/-- The exception-class label as `print_regs` renders it (exception.c lines
179-180): `ec_table[(esr >> 26) & 0x3f]`, with `"?"` substituted for null. -/
def print_regs_ecLabel (esr : Nat) : String :=
  match ec_table ((esr >>> 26) &&& 0x3f) with
  | some d => d
  | none => "?"

/-- The stack-pointer value `print_regs` reports (exception.c line 151):
the address of the register-save area plus 256 bytes (its full extent). -/
def print_regs_sp (regsAddr : Nat) : Nat :=
  regsAddr + 256

/-! Helper lemmas about the shared guard phase, used by several claims. -/

theorem guardPhase_el2_fields (s : ExcState) (el12 : Bool) (out : List Event) :
    (guardPhase s el12 out).st.spsr_el2 = s.spsr_el2 ∧
    (guardPhase s el12 out).st.elr_el2 = s.elr_el2 ∧
    (guardPhase s el12 out).el12 = el12 ∧
    (guardPhase s el12 out).earlyReturn = false := by
  unfold guardPhase finishGuard
  split_ifs <;> simp

theorem guardPhase_halted_iff (s : ExcState) (el12 : Bool) (out : List Event) :
    (guardPhase s el12 out).halted = true ↔
      ¬(s.exc_guard &&& GUARD_TYPE_MASK = GUARD_SKIP ∨
        s.exc_guard &&& GUARD_TYPE_MASK = GUARD_MARK ∨
        s.exc_guard &&& GUARD_TYPE_MASK = GUARD_RETURN) := by
  unfold guardPhase finishGuard
  split_ifs <;> simp_all

theorem guardPhase_mem_out (s : ExcState) (el12 : Bool) (out : List Event)
    (e : Event) (he : e ∈ out) : e ∈ (guardPhase s el12 out).output := by
  unfold guardPhase finishGuard
  split_ifs <;> simp [he]

theorem guardPhase_regs_report_mem (s : ExcState) (el12 : Bool) (out : List Event)
    (h : s.exc_guard &&& GUARD_SILENT = 0) :
    Event.regs_report el12 ∈ (guardPhase s el12 out).output := by
  unfold guardPhase finishGuard
  split_ifs <;> simp [h]

/-! Theorems settling the claims. -/

/-- C6: a synchronous exception whose saved status nibble is 0 (EL0t) with
exception class 0x3c (`brk (a64)`) makes `exc_sync` rewrite `SPSR_EL1` to
0x09 (EL2h) and `ELR_EL1` to the `el0_ret` trampoline and return immediately:
no output, no halt, and the guard cell, the exception counter and the
register-save area are untouched — with no hypothesis on the guard mode. -/
theorem exc_sync_el0_clean_return (s : ExcState) (h : isCleanEl0Return s) :
    (exc_sync s).st.spsr_el1 = 0x09 ∧
    (exc_sync s).st.elr_el1 = s.el0_ret ∧
    (exc_sync s).earlyReturn = true ∧
    (exc_sync s).output = [] ∧
    (exc_sync s).halted = false ∧
    (exc_sync s).st.exc_guard = s.exc_guard ∧
    (exc_sync s).st.exc_count = s.exc_count ∧
    (exc_sync s).st.regs = s.regs := by
  simp [exc_sync, h]

/-- Concrete state for the C6 witness: EL0t source, class `brk (a64)`,
guard OFF. -/
def el0RetState : ExcState where
  spsr_el1 := 0
  elr_el1 := 0x1000
  esr_el1 := 0x3c <<< 26
  spsr_el2 := 0xaa
  elr_el2 := 0xbb
  esr_el2 := 0
  spsr_el12 := 0xcc
  elr_el12 := 0xdd
  regs := fun j => j
  exc_guard := GUARD_OFF
  exc_count := 0
  in_el2 := true
  in_gl12 := false
  mem := fun _ => 0
  el0_ret := 0x2000
  el1_ret := 0x3000

theorem exc_sync_el0_clean_return_witness :
    isCleanEl0Return el0RetState ∧
    ((exc_sync el0RetState).st.spsr_el1 = 0x09 ∧
     (exc_sync el0RetState).st.elr_el1 = el0RetState.el0_ret ∧
     (exc_sync el0RetState).earlyReturn = true ∧
     (exc_sync el0RetState).output = [] ∧
     (exc_sync el0RetState).halted = false ∧
     (exc_sync el0RetState).st.exc_guard = el0RetState.exc_guard ∧
     (exc_sync el0RetState).st.exc_count = el0RetState.exc_count ∧
     (exc_sync el0RetState).st.regs = el0RetState.regs) :=
  ⟨by decide, exc_sync_el0_clean_return el0RetState (by decide)⟩

/-- C9: every class index below 64 is assigned in `ec_table` exactly when it is
in the designated-initializer list, no assigned entry equals the fallback
string, and `print_regs` renders the label as `"?"` exactly for the unassigned
entries, so the fallback can never be mistaken for a table entry. -/
theorem ec_table_assigned_and_fallback (c : Nat) (h : c < 64) :
    ((ec_table c).isSome ↔ c ∈ assignedECs) ∧
    ec_table c ≠ some "?" ∧
    (print_regs_ecLabel (c <<< 26) = "?" ↔ ec_table c = none) := by
  revert h
  revert c
  decide

theorem ec_table_assigned_and_fallback_witness :
    0x02 < 64 ∧
    (((ec_table 0x02).isSome ↔ 0x02 ∈ assignedECs) ∧
     ec_table 0x02 ≠ some "?" ∧
     (print_regs_ecLabel (0x02 <<< 26) = "?" ↔ ec_table 0x02 = none)) :=
  ⟨by decide, ec_table_assigned_and_fallback 0x02 (by decide)⟩

/-- C1: a hypercall (`isHvc`: at EL2, not in GL mode, EL1h source, class
`hvc in a64`) whose 16-bit immediate lies in 0x10..0x1f makes `exc_sync` copy
the guest shadow registers into the host's (`SPSR_EL2 := SPSR_EL12`,
`ELR_EL2 := ELR_EL12`), mark the exception as the guest's (`el12` set), and
fall through to the shared reporting/guard logic rather than return early. -/
theorem exc_sync_hvc_relay_copies_guest_state (s : ExcState) (hh : isHvc s)
    (h1 : 0x10 ≤ s.esr_el2 &&& 0xffff) (h2 : s.esr_el2 &&& 0xffff ≤ 0x1f) :
    (exc_sync s).st.spsr_el2 = s.spsr_el12 ∧
    (exc_sync s).st.elr_el2 = s.elr_el12 ∧
    (exc_sync s).el12 = true ∧
    (exc_sync s).earlyReturn = false := by
  have hnc : ¬ isCleanEl0Return s := by
    rintro ⟨h0, -⟩
    have h5 := hh.2.2.1
    omega
  have h0 : ¬ (s.esr_el2 &&& 0xffff = 0) := by omega
  have hfields := guardPhase_el2_fields
    { s with spsr_el2 := s.spsr_el12, elr_el2 := s.elr_el12 } true
    (if s.exc_guard &&& GUARD_SILENT = 0 then [Event.el1_exc (s.esr_el2 &&& 0xffff)] else [])
  simp only [exc_sync, hvcDispatch, if_neg hnc, if_pos hh, if_neg h0,
    if_pos (And.intro h1 h2)]
  exact hfields

/-- Concrete state for the C1 witness: hypercall with immediate 0x14,
guard SKIP armed. -/
def hvcRelayState : ExcState where
  spsr_el1 := 5
  elr_el1 := 0x1000
  esr_el1 := 0x16 <<< 26
  spsr_el2 := 0xaa
  elr_el2 := 0xbb
  esr_el2 := 0x14
  spsr_el12 := 0x3c5
  elr_el12 := 0x8000
  regs := fun j => j
  exc_guard := GUARD_SKIP
  exc_count := 0
  in_el2 := true
  in_gl12 := false
  mem := fun _ => 0
  el0_ret := 0x2000
  el1_ret := 0x3000

theorem exc_sync_halted_iff (s : ExcState) (hnc : ¬ isCleanEl0Return s)
    (hnh : ¬ isHvc s) :
    (exc_sync s).halted = true ↔
      ¬(s.exc_guard &&& GUARD_TYPE_MASK = GUARD_SKIP ∨
        s.exc_guard &&& GUARD_TYPE_MASK = GUARD_MARK ∨
        s.exc_guard &&& GUARD_TYPE_MASK = GUARD_RETURN) := by
  simp only [exc_sync, if_neg hnc, if_neg hnh]
  exact guardPhase_halted_iff _ _ _

/-- Base concrete fault state used by several witnesses: a plain synchronous
fault (EL1h source, class `data abort (current)`), not at EL2, guard OFF. -/
def baseFault : ExcState where
  spsr_el1 := 5
  elr_el1 := 0x1000
  esr_el1 := 0x25 <<< 26
  spsr_el2 := 0xaa
  elr_el2 := 0xbb
  esr_el2 := 0
  spsr_el12 := 0xcc
  elr_el12 := 0xdd
  regs := fun j => 0x100 + j
  exc_guard := GUARD_OFF
  exc_count := 0
  in_el2 := false
  in_gl12 := false
  mem := fun _ => 0
  el0_ret := 0x2000
  el1_ret := 0x3000

/-- C3: with `GUARD_RETURN` armed, a synchronous fault that reaches the guard
engine poisons register slot 0, resolves the committed return address to the
saved link-register slot 30, increments `exc_count` by 1, resets `exc_guard`
to `GUARD_OFF` (one-shot), does not halt — and a second fault on the resulting
state, with nothing rearmed, finds the guard OFF and is fatal. -/
theorem exc_sync_guard_return_one_shot (s : ExcState)
    (hnc : ¬ isCleanEl0Return s) (hnh : ¬ isHvc s)
    (hm : s.exc_guard &&& GUARD_TYPE_MASK = GUARD_RETURN) :
    (exc_sync s).st.regs 0 = POISON ∧
    (exc_sync s).st.elr_el1 = s.regs 30 ∧
    (exc_sync s).st.exc_count = s.exc_count + 1 ∧
    (exc_sync s).st.exc_guard = GUARD_OFF ∧
    (exc_sync s).halted = false ∧
    (exc_sync (exc_sync s).st).halted = true := by
  have h1 : ¬ (s.exc_guard &&& GUARD_TYPE_MASK = GUARD_SKIP) := by rw [hm]; decide
  have h2 : ¬ (s.exc_guard &&& GUARD_TYPE_MASK = GUARD_MARK) := by rw [hm]; decide
  simp only [exc_sync, if_neg hnc, if_neg hnh, guardPhase, if_neg h1, if_neg h2,
    if_pos hm, finishGuard]
  refine ⟨by simp [updReg], by simp [updReg], trivial, trivial, trivial, ?_⟩
  refine (exc_sync_halted_iff _ ?_ ?_).mpr ?_
  · simpa [isCleanEl0Return] using hnc
  · simpa [isHvc] using hnh
  · simp [GUARD_OFF, GUARD_TYPE_MASK, GUARD_SKIP, GUARD_MARK, GUARD_RETURN]

def returnState : ExcState := { baseFault with exc_guard := GUARD_RETURN }

theorem exc_sync_guard_return_one_shot_witness :
    (exc_sync returnState).st.regs 0 = POISON ∧
    (exc_sync returnState).st.elr_el1 = returnState.regs 30 ∧
    (exc_sync returnState).st.exc_count = returnState.exc_count + 1 ∧
    (exc_sync returnState).st.exc_guard = GUARD_OFF ∧
    (exc_sync returnState).halted = false ∧
    (exc_sync (exc_sync returnState).st).halted = true :=
  exc_sync_guard_return_one_shot returnState (by decide) (by decide) (by decide)

/-- C4: with `GUARD_MARK` armed, a synchronous fault that reaches the guard
engine poisons exactly the register slot indexed by the low 5 bits of the
faulting instruction word (read at `ELR_EL1`), leaves every other slot
unchanged, and resolves the return address to the fault address plus 4. -/
theorem exc_sync_guard_mark_poisons_dest (s : ExcState)
    (hnc : ¬ isCleanEl0Return s) (hnh : ¬ isHvc s)
    (hm : s.exc_guard &&& GUARD_TYPE_MASK = GUARD_MARK)
    (helr : s.elr_el1 + 4 < 2 ^ 64) :
    (exc_sync s).st.regs (s.mem s.elr_el1 &&& 0x1f) = POISON ∧
    (∀ j, j ≠ s.mem s.elr_el1 &&& 0x1f → (exc_sync s).st.regs j = s.regs j) ∧
    (exc_sync s).st.elr_el1 = s.elr_el1 + 4 := by
  have h1 : ¬ (s.exc_guard &&& GUARD_TYPE_MASK = GUARD_SKIP) := by rw [hm]; decide
  simp only [exc_sync, if_neg hnc, if_neg hnh, guardPhase, if_neg h1, if_pos hm,
    finishGuard]
  refine ⟨by simp [updReg], fun j hj => ?_, ?_⟩
  · simp [updReg, hj]
  · exact Nat.mod_eq_of_lt helr

def markState : ExcState :=
  { baseFault with exc_guard := GUARD_MARK, mem := fun _ => 0xf9400007 }

theorem exc_sync_guard_mark_poisons_dest_witness :
    markState.mem markState.elr_el1 &&& 0x1f = 7 ∧
    (exc_sync markState).st.regs 7 = POISON ∧
    (exc_sync markState).st.regs 3 = markState.regs 3 ∧
    (exc_sync markState).st.elr_el1 = markState.elr_el1 + 4 := by
  have h := exc_sync_guard_mark_poisons_dest markState (by decide) (by decide)
    (by decide) (by decide)
  refine ⟨by decide, ?_, ?_, h.2.2⟩
  · have := h.1
    simpa using this
  · exact h.2.1 3 (by decide)

/-- C10: under `GUARD_MARK`, the poisoned register-context index, the low 5
bits of the faulting instruction word, always lies below 32; an instruction
whose low 5 bits are 31 lands the poison write at slot 31 — past the
general-purpose range 0..30 — yet the written quadword still lies inside the
256-byte save area whose end `print_regs` computes as the stack pointer. -/
theorem exc_sync_mark_index_range (s : ExcState)
    (hnc : ¬ isCleanEl0Return s) (hnh : ¬ isHvc s)
    (hm : s.exc_guard &&& GUARD_TYPE_MASK = GUARD_MARK) :
    s.mem s.elr_el1 &&& 0x1f < 32 ∧
    (exc_sync s).st.regs (s.mem s.elr_el1 &&& 0x1f) = POISON ∧
    (s.mem s.elr_el1 &&& 0x1f = 31 →
      (exc_sync s).st.regs 31 = POISON ∧ ¬ (31 : Nat) ≤ 30) ∧
    (∀ a, a + 8 * (s.mem s.elr_el1 &&& 0x1f) + 8 ≤ print_regs_sp a) := by
  have hle : s.mem s.elr_el1 &&& 0x1f ≤ 0x1f := Nat.and_le_right
  have h1 : ¬ (s.exc_guard &&& GUARD_TYPE_MASK = GUARD_SKIP) := by rw [hm]; decide
  have hpois : (exc_sync s).st.regs (s.mem s.elr_el1 &&& 0x1f) = POISON := by
    simp only [exc_sync, if_neg hnc, if_neg hnh, guardPhase, if_neg h1, if_pos hm,
      finishGuard]
    simp [updReg]
  refine ⟨by omega, hpois, fun h31 => ⟨by rw [← h31]; exact hpois, by decide⟩, ?_⟩
  intro a
  simp only [print_regs_sp]
  omega

def mark31State : ExcState :=
  { baseFault with exc_guard := GUARD_MARK, mem := fun _ => 0xf940001f }

theorem exc_sync_mark_index_range_witness :
    mark31State.mem mark31State.elr_el1 &&& 0x1f = 31 ∧
    (exc_sync mark31State).st.regs 31 = POISON ∧
    ¬ (31 : Nat) ≤ 30 ∧
    0 + 8 * (mark31State.mem mark31State.elr_el1 &&& 0x1f) + 8 ≤ print_regs_sp 0 := by
  have h := exc_sync_mark_index_range mark31State (by decide) (by decide) (by decide)
  have h31 : mark31State.mem mark31State.elr_el1 &&& 0x1f = 31 := by decide
  exact ⟨h31, (h.2.2.1 h31).1, (h.2.2.1 h31).2, h.2.2.2 0⟩

/-- Scenario glue for the repeated-fault property: the guarded instruction at
address `a` is re-executed and faults again, so a fresh synchronous exception
arrives with `ELR_EL1 = a` and `exc_sync` runs on the resulting state. -/
def refault (a : Nat) (s : ExcState) : ExcState :=
  (exc_sync { s with elr_el1 := a }).st

theorem refault_skip_step (a : Nat) (s : ExcState)
    (hnc : ¬ isCleanEl0Return s) (hnh : ¬ isHvc s)
    (hm : s.exc_guard &&& GUARD_TYPE_MASK = GUARD_SKIP) (ha : a + 4 < 2 ^ 64) :
    (refault a s).exc_count = s.exc_count + 1 ∧
    (refault a s).exc_guard = s.exc_guard ∧
    (refault a s).elr_el1 = a + 4 ∧
    (refault a s).spsr_el1 = s.spsr_el1 ∧
    (refault a s).esr_el1 = s.esr_el1 ∧
    (refault a s).in_el2 = s.in_el2 ∧
    (refault a s).in_gl12 = s.in_gl12 := by
  have hnc' : ¬ isCleanEl0Return { s with elr_el1 := a } := by
    simpa [isCleanEl0Return] using hnc
  have hnh' : ¬ isHvc { s with elr_el1 := a } := by
    simpa [isHvc] using hnh
  have hm' : ({ s with elr_el1 := a } : ExcState).exc_guard &&& GUARD_TYPE_MASK =
      GUARD_SKIP := hm
  simp only [refault, exc_sync, if_neg hnc', if_neg hnh', guardPhase, if_pos hm',
    finishGuard]
  refine ⟨trivial, trivial, ?_, trivial, trivial, trivial, trivial⟩
  exact Nat.mod_eq_of_lt ha

/-- C5: with `GUARD_SKIP` armed, each fault that reaches the guard engine
increments `exc_count` by exactly 1, leaves `exc_guard` unchanged (SKIP stays
armed), and resolves the return address to the fault address plus 4; hence
re-faulting N times at the same address advances the counter by exactly N,
keeps the guard armed, and resumes each time at the fault address plus 4. -/
theorem exc_sync_guard_skip_idempotent (s : ExcState) (a N : Nat)
    (hnc : ¬ isCleanEl0Return s) (hnh : ¬ isHvc s)
    (hm : s.exc_guard &&& GUARD_TYPE_MASK = GUARD_SKIP) (ha : a + 4 < 2 ^ 64) :
    ((refault a)^[N] s).exc_count = s.exc_count + N ∧
    ((refault a)^[N] s).exc_guard = s.exc_guard ∧
    (∀ k, k < N → ((refault a)^[k + 1] s).elr_el1 = a + 4) := by
  have main : ∀ M : Nat,
      ((refault a)^[M] s).exc_count = s.exc_count + M ∧
      ((refault a)^[M] s).exc_guard = s.exc_guard ∧
      ((refault a)^[M] s).spsr_el1 = s.spsr_el1 ∧
      ((refault a)^[M] s).esr_el1 = s.esr_el1 ∧
      ((refault a)^[M] s).in_el2 = s.in_el2 ∧
      ((refault a)^[M] s).in_gl12 = s.in_gl12 := by
    intro M
    induction M with
    | zero => simp
    | succ M ih =>
      have hnc' : ¬ isCleanEl0Return ((refault a)^[M] s) := by
        simp only [isCleanEl0Return, ih.2.2.1, ih.2.2.2.1] at *
        exact hnc
      have hnh' : ¬ isHvc ((refault a)^[M] s) := by
        simp only [isHvc, ih.2.2.1, ih.2.2.2.1, ih.2.2.2.2.1, ih.2.2.2.2.2] at *
        exact hnh
      have hm' : ((refault a)^[M] s).exc_guard &&& GUARD_TYPE_MASK = GUARD_SKIP := by
        rw [ih.2.1]; exact hm
      have step := refault_skip_step a ((refault a)^[M] s) hnc' hnh' hm' ha
      rw [Function.iterate_succ_apply']
      refine ⟨?_, ?_, ?_, ?_, ?_, ?_⟩
      · rw [step.1, ih.1]; push_cast; ring
      · rw [step.2.1, ih.2.1]
      · rw [step.2.2.2.1, ih.2.2.1]
      · rw [step.2.2.2.2.1, ih.2.2.2.1]
      · rw [step.2.2.2.2.2.1, ih.2.2.2.2.1]
      · rw [step.2.2.2.2.2.2, ih.2.2.2.2.2]
  refine ⟨(main N).1, (main N).2.1, fun k _ => ?_⟩
  have ih := main k
  have hnc' : ¬ isCleanEl0Return ((refault a)^[k] s) := by
    simp only [isCleanEl0Return, ih.2.2.1, ih.2.2.2.1] at *
    exact hnc
  have hnh' : ¬ isHvc ((refault a)^[k] s) := by
    simp only [isHvc, ih.2.2.1, ih.2.2.2.1, ih.2.2.2.2.1, ih.2.2.2.2.2] at *
    exact hnh
  have hm' : ((refault a)^[k] s).exc_guard &&& GUARD_TYPE_MASK = GUARD_SKIP := by
    rw [ih.2.1]; exact hm
  have step := refault_skip_step a ((refault a)^[k] s) hnc' hnh' hm' ha
  rw [Function.iterate_succ_apply']
  exact step.2.2.1

def skipState : ExcState := { baseFault with exc_guard := GUARD_SKIP }

theorem exc_sync_guard_skip_idempotent_witness :
    ((refault 0x1000)^[3] skipState).exc_count = skipState.exc_count + (3 : Nat) ∧
    ((refault 0x1000)^[3] skipState).exc_guard = skipState.exc_guard ∧
    ((refault 0x1000)^[2 + 1] skipState).elr_el1 = 0x1000 + 4 := by
  have h := exc_sync_guard_skip_idempotent skipState 0x1000 3 (by decide) (by decide)
    (by decide) (by decide)
  exact ⟨h.1, h.2.1, h.2.2 2 (by decide)⟩

theorem exc_sync_hvc_relay_copies_guest_state_witness :
    (0x10 ≤ hvcRelayState.esr_el2 &&& 0xffff ∧ hvcRelayState.esr_el2 &&& 0xffff ≤ 0x1f) ∧
    ((exc_sync hvcRelayState).st.spsr_el2 = hvcRelayState.spsr_el12 ∧
     (exc_sync hvcRelayState).st.elr_el2 = hvcRelayState.elr_el12 ∧
     (exc_sync hvcRelayState).el12 = true ∧
     (exc_sync hvcRelayState).earlyReturn = false) :=
  ⟨by decide,
   exc_sync_hvc_relay_copies_guest_state hvcRelayState (by decide) (by decide) (by decide)⟩

/-- Concrete hypercall state with an unrecognized immediate (0x42) and guard
OFF: the handler prints `Unknown HVC`, leaves `SPSR_EL2`/`ELR_EL2` alone, but
falls through to the guard engine, which — guard OFF — reboots the machine. -/
def unknownHvcState : ExcState :=
  { baseFault with esr_el2 := 0x42, in_el2 := true, esr_el1 := 0x16 <<< 26 }

/-- Counterexample to C2 as stated: a hypercall with an unknown immediate and
no guard armed is reported and does not touch `SPSR_EL2`/`ELR_EL2`, yet it
does halt the machine (`flush_and_reboot` is reached), because the handler
falls through to the guard engine with `exc_guard = GUARD_OFF`. -/
theorem exc_sync_unknown_hvc_halts_when_guard_off :
    unknownHvcState.exc_guard = GUARD_OFF ∧
    Event.unknown_hvc 0x42 ∈ (exc_sync unknownHvcState).output ∧
    (exc_sync unknownHvcState).st.spsr_el2 = unknownHvcState.spsr_el2 ∧
    (exc_sync unknownHvcState).st.elr_el2 = unknownHvcState.elr_el2 ∧
    (exc_sync unknownHvcState).halted = true := by
  decide

/-- C2 (amended): a hypercall whose immediate is neither 0 nor in 0x10..0x1f
is reported (`Unknown HVC`), leaves `SPSR_EL2`/`ELR_EL2` unchanged and does
not return early, but it falls through to the guard engine, so it halts
exactly when no recognized guard mode (SKIP, MARK or RETURN) is armed. -/
theorem exc_sync_unknown_hvc_behavior (s : ExcState) (hh : isHvc s)
    (h0 : s.esr_el2 &&& 0xffff ≠ 0)
    (hr : ¬ (0x10 ≤ s.esr_el2 &&& 0xffff ∧ s.esr_el2 &&& 0xffff ≤ 0x1f)) :
    (exc_sync s).st.spsr_el2 = s.spsr_el2 ∧
    (exc_sync s).st.elr_el2 = s.elr_el2 ∧
    Event.unknown_hvc (s.esr_el2 &&& 0xffff) ∈ (exc_sync s).output ∧
    (exc_sync s).earlyReturn = false ∧
    ((exc_sync s).halted = true ↔
      ¬(s.exc_guard &&& GUARD_TYPE_MASK = GUARD_SKIP ∨
        s.exc_guard &&& GUARD_TYPE_MASK = GUARD_MARK ∨
        s.exc_guard &&& GUARD_TYPE_MASK = GUARD_RETURN)) := by
  have hnc : ¬ isCleanEl0Return s := by
    rintro ⟨hz, -⟩
    have h5 := hh.2.2.1
    omega
  simp only [exc_sync, hvcDispatch, if_neg hnc, if_pos hh, if_neg h0, if_neg hr]
  have hf := guardPhase_el2_fields s false [Event.unknown_hvc (s.esr_el2 &&& 0xffff)]
  exact ⟨hf.1, hf.2.1, guardPhase_mem_out s false _ _ (by simp), hf.2.2.2,
    guardPhase_halted_iff s false _⟩

def unknownHvcArmedState : ExcState :=
  { unknownHvcState with exc_guard := GUARD_SKIP }

theorem exc_sync_unknown_hvc_behavior_witness :
    (exc_sync unknownHvcArmedState).st.spsr_el2 = unknownHvcArmedState.spsr_el2 ∧
    (exc_sync unknownHvcArmedState).st.elr_el2 = unknownHvcArmedState.elr_el2 ∧
    Event.unknown_hvc (unknownHvcArmedState.esr_el2 &&& 0xffff) ∈
      (exc_sync unknownHvcArmedState).output ∧
    (exc_sync unknownHvcArmedState).earlyReturn = false ∧
    ((exc_sync unknownHvcArmedState).halted = true ↔
      ¬(unknownHvcArmedState.exc_guard &&& GUARD_TYPE_MASK = GUARD_SKIP ∨
        unknownHvcArmedState.exc_guard &&& GUARD_TYPE_MASK = GUARD_MARK ∨
        unknownHvcArmedState.exc_guard &&& GUARD_TYPE_MASK = GUARD_RETURN)) :=
  exc_sync_unknown_hvc_behavior unknownHvcArmedState (by decide) (by decide) (by decide)

/-- Concrete state with `GUARD_RETURN` armed together with the SILENT flag;
every register slot (in particular slot 30) holds 0x4000. -/
def silentReturnState : ExcState :=
  { baseFault with exc_guard := GUARD_RETURN ||| GUARD_SILENT, regs := fun _ => 0x4000 }

/-- Counterexample to C7 as stated: with SILENT set and `GUARD_RETURN` armed,
handling the fault does produce diagnostic output — the one-shot reset writes
`GUARD_OFF` over the whole guard cell, clearing SILENT before the recovery
message check, so `Recovering from exception` is printed. -/
theorem exc_sync_silent_return_prints_recovery :
    silentReturnState.exc_guard &&& GUARD_SILENT ≠ 0 ∧
    silentReturnState.exc_guard &&& GUARD_TYPE_MASK = GUARD_RETURN ∧
    (exc_sync silentReturnState).output = [Event.recovering 0x4000] := by
  decide

/-- C7 (amended): with the SILENT flag set, a guarded fault that reaches the
guard engine is handled with no output at all under SKIP and MARK; under
RETURN the banner and the register report are likewise suppressed, but the
one-shot reset to `GUARD_OFF` clears the SILENT flag before the recovery
message check, so exactly the recovery message (with the resolved return
address from slot 30) is printed. -/
theorem exc_sync_silent_suppression (s : ExcState)
    (hnc : ¬ isCleanEl0Return s) (hnh : ¬ isHvc s)
    (hsil : ¬ (s.exc_guard &&& GUARD_SILENT = 0)) :
    (s.exc_guard &&& GUARD_TYPE_MASK = GUARD_SKIP → (exc_sync s).output = []) ∧
    (s.exc_guard &&& GUARD_TYPE_MASK = GUARD_MARK → (exc_sync s).output = []) ∧
    (s.exc_guard &&& GUARD_TYPE_MASK = GUARD_RETURN →
      (exc_sync s).output = [Event.recovering (s.regs 30)]) := by
  refine ⟨fun hm => ?_, fun hm => ?_, fun hm => ?_⟩
  · simp only [exc_sync, if_neg hnc, if_neg hnh, guardPhase, if_pos hm, finishGuard,
      if_neg hsil]
    simp
  · have h1 : ¬ (s.exc_guard &&& GUARD_TYPE_MASK = GUARD_SKIP) := by rw [hm]; decide
    simp only [exc_sync, if_neg hnc, if_neg hnh, guardPhase, if_neg h1, if_pos hm,
      finishGuard, if_neg hsil]
    simp
  · have h1 : ¬ (s.exc_guard &&& GUARD_TYPE_MASK = GUARD_SKIP) := by rw [hm]; decide
    have h2 : ¬ (s.exc_guard &&& GUARD_TYPE_MASK = GUARD_MARK) := by rw [hm]; decide
    simp only [exc_sync, if_neg hnc, if_neg hnh, guardPhase, if_neg h1, if_neg h2,
      if_pos hm, finishGuard, if_neg hsil]
    simp [updReg, GUARD_OFF, GUARD_SILENT]

def silentSkipState : ExcState :=
  { baseFault with exc_guard := GUARD_SKIP ||| GUARD_SILENT }

theorem exc_sync_silent_suppression_witness :
    (silentSkipState.exc_guard &&& GUARD_TYPE_MASK = GUARD_SKIP →
      (exc_sync silentSkipState).output = []) ∧
    (silentSkipState.exc_guard &&& GUARD_TYPE_MASK = GUARD_MARK →
      (exc_sync silentSkipState).output = []) ∧
    (silentSkipState.exc_guard &&& GUARD_TYPE_MASK = GUARD_RETURN →
      (exc_sync silentSkipState).output = [Event.recovering (silentSkipState.regs 30)]) :=
  exc_sync_silent_suppression silentSkipState (by decide) (by decide) (by decide)

/-- Concrete state below EL2 matching the clean-EL0-return pattern: saved
status nibble 0 and exception class 0x3c, with `in_el2 = false`. -/
def el0BelowEl2State : ExcState :=
  { baseFault with spsr_el1 := 0, esr_el1 := 0x3c <<< 26, el0_ret := 0x5000 }

/-- Counterexample to C8 as stated: a synchronous exception taken when the
core is not at EL2 can still be redirected to the trampoline — the
clean-EL0-return check of `exc_sync` does not test the privilege level, so
this exception returns early with `SPSR_EL1 = 0x09` and `ELR_EL1 = el0_ret`,
bypassing reporting and the guard engine entirely. -/
theorem exc_sync_el0_return_redirects_below_el2 :
    el0BelowEl2State.in_el2 = false ∧
    (exc_sync el0BelowEl2State).earlyReturn = true ∧
    (exc_sync el0BelowEl2State).st.elr_el1 = 0x5000 ∧
    (exc_sync el0BelowEl2State).st.spsr_el1 = 0x09 ∧
    (exc_sync el0BelowEl2State).output = [] := by
  decide

/-- C8 (amended): the hypercall-immediate dispatch indeed runs only at EL2,
but the clean-EL0-return trampoline does not test the privilege level; for
every synchronous exception taken when the core is not at EL2 that does not
match the clean-EL0-return pattern, `exc_sync` performs no redirection (no
early return, guest flag clear, `SPSR_EL2`/`ELR_EL2` untouched) and proceeds
directly to reporting (unless silenced) and the guard engine. -/
theorem exc_sync_non_el2_no_hvc_dispatch (s : ExcState) (hel2 : s.in_el2 = false)
    (hnc : ¬ isCleanEl0Return s) :
    (exc_sync s).earlyReturn = false ∧
    (exc_sync s).el12 = false ∧
    (exc_sync s).st.spsr_el2 = s.spsr_el2 ∧
    (exc_sync s).st.elr_el2 = s.elr_el2 ∧
    (s.exc_guard &&& GUARD_SILENT = 0 →
      Event.sync_banner ∈ (exc_sync s).output ∧
      Event.regs_report false ∈ (exc_sync s).output) ∧
    ((exc_sync s).halted = true ↔
      ¬(s.exc_guard &&& GUARD_TYPE_MASK = GUARD_SKIP ∨
        s.exc_guard &&& GUARD_TYPE_MASK = GUARD_MARK ∨
        s.exc_guard &&& GUARD_TYPE_MASK = GUARD_RETURN)) := by
  have hnh : ¬ isHvc s := by simp [isHvc, hel2]
  simp only [exc_sync, if_neg hnc, if_neg hnh]
  have hf := guardPhase_el2_fields s false
    (if s.exc_guard &&& GUARD_SILENT = 0 then [Event.sync_banner] else [])
  exact ⟨hf.2.2.2, hf.2.2.1, hf.1, hf.2.1,
    fun hq => ⟨guardPhase_mem_out s false _ _ (by simp [hq]),
      guardPhase_regs_report_mem s false _ hq⟩,
    guardPhase_halted_iff s false _⟩

theorem exc_sync_non_el2_no_hvc_dispatch_witness :
    (exc_sync skipState).earlyReturn = false ∧
    (exc_sync skipState).el12 = false ∧
    (exc_sync skipState).st.spsr_el2 = skipState.spsr_el2 ∧
    (exc_sync skipState).st.elr_el2 = skipState.elr_el2 ∧
    (skipState.exc_guard &&& GUARD_SILENT = 0 →
      Event.sync_banner ∈ (exc_sync skipState).output ∧
      Event.regs_report false ∈ (exc_sync skipState).output) ∧
    ((exc_sync skipState).halted = true ↔
      ¬(skipState.exc_guard &&& GUARD_TYPE_MASK = GUARD_SKIP ∨
        skipState.exc_guard &&& GUARD_TYPE_MASK = GUARD_MARK ∨
        skipState.exc_guard &&& GUARD_TYPE_MASK = GUARD_RETURN)) :=
  exc_sync_non_el2_no_hvc_dispatch skipState (by decide) (by decide)

end M1n1
